import Mathlib

/-!
Verification development for the signalk-meteoblue forecast plugin
(`src/index.ts`).  JavaScript numbers that only ever hold provider data or
navigation data are modelled as rationals (every finite float is rational);
values produced by trigonometric formulas are modelled as reals.  Timestamps
are epoch milliseconds (`Int`); the JavaScript `Date` local-time accessors are
modelled with an explicit fixed timezone offset `tz` (ms to add to UTC),
ignoring DST transitions.
-/

/-! ## Time utilities (JS `Date` semantics with a fixed local offset) -/

/-- Local-time truncation to the hour:
`new Date(getFullYear(), getMonth(), getDate(), getHours(), 0, 0, 0)`. -/
def jsTruncToHour (tz ms : ℤ) : ℤ := 3600000 * ((ms + tz).fdiv 3600000) - tz

/-- `Date.prototype.getHours()` — hour of day, local time. -/
def jsGetHours (tz ms : ℤ) : ℤ := ((ms + tz).fdiv 3600000).emod 24

/-- `Date.prototype.getDay()` — day of week, 0 = Sunday (epoch day 0 was a
Thursday, hence the +4). -/
def jsGetDay (tz ms : ℤ) : ℤ := ((ms + tz).fdiv 86400000 + 4).emod 7

/-- Proleptic Gregorian calendar date from a day number counted from
1970-01-01 (the standard civil-from-days algorithm); returns
(year, month 1..12, day 1..31). -/
def civilFromDays (z0 : ℤ) : ℤ × ℤ × ℤ :=
  let z := z0 + 719468
  let era := z.fdiv 146097
  let doe := z - era * 146097
  let yoe := (doe - doe.fdiv 1460 + doe.fdiv 36524 - doe.fdiv 146096).fdiv 365
  let y := yoe + era * 400
  let doy := doe - (365 * yoe + yoe.fdiv 4 - yoe.fdiv 100)
  let mp := (5 * doy + 2).fdiv 153
  let d := doy - (153 * mp + 2).fdiv 5 + 1
  let m := mp + (if mp < 10 then 3 else -9)
  (y + (if m ≤ 2 then 1 else 0), m, d)

/-- The (getFullYear, getMonth, getDate, getHours) quadruple of a timestamp in
local time. -/
def jsYMDH (tz ms : ℤ) : ℤ × ℤ × ℤ × ℤ :=
  let localMs := ms + tz
  let day := localMs.fdiv 86400000
  let c := civilFromDays day
  (c.1, c.2.1, c.2.2, (localMs.fdiv 3600000).emod 24)

/-- The moving assembler's row match: equal local calendar year, month, day
and hour. -/
def sameLocalYMDH (tz a b : ℤ) : Bool := jsYMDH tz a == jsYMDH tz b

/-- `Math.round`: round half toward positive infinity. -/
def jsRound (q : ℚ) : ℤ := ⌊q + 1 / 2⌋

/-- `Math.round((t - now) / (1000 * 60 * 60))` — the `relativeHour` field. -/
def jsRoundHours (deltaMs : ℤ) : ℤ := jsRound ((deltaMs : ℚ) / 3600000)

/-! ## String utilities (`String.prototype.includes` etc.) -/

/-- Substring containment on character lists. -/
def charsContain (l pat : List Char) : Bool :=
  match l with
  | [] => pat.isEmpty
  | c :: rest => pat.isPrefixOf (c :: rest) || charsContain rest pat

/-- JS `s.includes(pat)`. -/
def strIncludes (s pat : String) : Bool := charsContain s.data pat.data

/-- JS `s.endsWith(pat)` (used only to state the spec's wording). -/
def strEndsWith (s pat : String) : Bool := pat.data.isSuffixOf s.data

/-- Delete the first occurrence of `pat` (JS `s.replace(pat, "")`). -/
def charsDeleteFirst (l pat : List Char) : List Char :=
  match l with
  | [] => []
  | c :: rest =>
    if pat.isPrefixOf (c :: rest) then (c :: rest).drop pat.length
    else c :: charsDeleteFirst rest pat

/-- JS `pkg.replace(suffix, "")` as used on package names. -/
def stripPackageTag (s pat : String) : String := ⟨charsDeleteFirst s.data pat.data⟩

/-! ## Unit converters (src/index.ts lines 301-305) -/

noncomputable def degToRad (degrees : ℝ) : ℝ := degrees * (Real.pi / 180)

noncomputable def celsiusToKelvin (celsius : ℝ) : ℝ := celsius + 273.15

noncomputable def mbToPA (mb : ℝ) : ℝ := mb * 100

noncomputable def mmToM (mm : ℝ) : ℝ := mm / 1000

noncomputable def percentToRatio (percent : ℝ) : ℝ := percent / 100

/-! ## Douglas sea state descriptions (lines 308-338).
The JS lookup is `descriptions[Math.round(scale)] || fallback`; every table
entry is a nonempty (hence truthy) string, so `||` fires exactly on the
out-of-range (undefined) case. -/

def douglasSimpleDescriptions : List (ℤ × String) :=
  [(0, "Calm"), (1, "Calm"), (2, "Smooth"), (3, "Slight"), (4, "Moderate"),
   (5, "Rough"), (6, "Very rough"), (7, "High"), (8, "Very high"),
   (9, "Phenomenal")]

def douglasVerboseDescriptions : List (ℤ × String) :=
  [(0, "Calm (0m) - Sea like a mirror"),
   (1, "Calm (0-0.1m) - Ripples with appearance of scales, no foam crests"),
   (2, "Smooth (0.1-0.5m) - Small wavelets, crests of glassy appearance, not breaking"),
   (3, "Slight (0.5-1.25m) - Large wavelets, crests begin to break, scattered whitecaps"),
   (4, "Moderate (1.25-2.5m) - Small waves becoming longer, numerous whitecaps"),
   (5, "Rough (2.5-4m) - Moderate waves, many whitecaps, some spray"),
   (6, "Very rough (4-6m) - Large waves, whitecaps everywhere, more spray"),
   (7, "High (6-9m) - Sea heaps up, white foam streaks off breakers"),
   (8, "Very high (9-14m) - Moderately high waves, crests break into spindrift"),
   (9, "Phenomenal (>14m) - High waves, dense foam, sea completely white with driving spray")]

def douglasSeaStateSimple (scale : ℚ) : String :=
  match douglasSimpleDescriptions.find? (fun p => p.1 == jsRound scale) with
  | some p => p.2
  | none => "Unknown"

def douglasSeaStateVerbose (scale : ℚ) : String :=
  match douglasVerboseDescriptions.find? (fun p => p.1 == jsRound scale) with
  | some p => p.2
  | none => "Unknown (" ++ toString scale ++ ")"

/-! ## Field-to-conversion dispatch.
The if/else chain below appears verbatim in `processHourlyForecastForPackage`
(lines 1619-1651) and again in `processDailyForecastForPackage` (lines
1706-1738); it is modelled once. -/

inductive FieldConv
  | c2k | d2r | mm2m | hpa2pa | p2r | seastate | pass
deriving DecidableEq

/-- The source's dispatch chain, condition for condition, in source order. -/
def hourlyDailyFieldConv (field : String) : FieldConv :=
  if strIncludes field "temperature" || field == "felttemperature" then .c2k
  else if strIncludes field "direction" || field == "winddirection" then .d2r
  else if field == "precipitation" || field == "convective_precipitation" then .mm2m
  else if strIncludes field "pressure" || field == "sealevelpressure" then .hpa2pa
  else if strIncludes field "humidity" || strIncludes field "cloudcover" then .p2r
  else if strIncludes field "precipitation_probability" then .p2r
  else if field == "douglas_seastate" then .seastate
  else .pass

/-- The spec's description of the same dispatch, word for word: temperature,
then direction, then the two exact precipitation names, then pressure, then
humidity / cloudcover / names *ending in* "probability", then the seastate
field, else pass-through.  (Definition follows the spec, for comparison with
`hourlyDailyFieldConv` which follows the source.) -/
def specFieldConv (field : String) : FieldConv :=
  if strIncludes field "temperature" then .c2k
  else if strIncludes field "direction" then .d2r
  else if field == "precipitation" || field == "convective_precipitation" then .mm2m
  else if strIncludes field "pressure" then .hpa2pa
  else if strIncludes field "humidity" || strIncludes field "cloudcover"
          || strEndsWith field "probability" then .p2r
  else if field == "douglas_seastate" then .seastate
  else .pass

/-- The amended spec dispatch: identical to `specFieldConv` except that the
percent-to-ratio clause matches names *containing* "precipitation_probability"
instead of names ending in "probability". -/
def specFieldConvAmended (field : String) : FieldConv :=
  if strIncludes field "temperature" then .c2k
  else if strIncludes field "direction" then .d2r
  else if field == "precipitation" || field == "convective_precipitation" then .mm2m
  else if strIncludes field "pressure" then .hpa2pa
  else if strIncludes field "humidity" || strIncludes field "cloudcover"
          || strIncludes field "precipitation_probability" then .p2r
  else if field == "douglas_seastate" then .seastate
  else .pass

/-- A converted output value: a number or (for the derived Douglas sea state
descriptions) a string. -/
inductive FVal
  | num (x : ℝ)
  | str (s : String)

/-- The record entries produced for one raw field, given its conversion. -/
noncomputable def applyFieldConv (conv : FieldConv) (field : String) (value : ℚ) :
    List (String × FVal) :=
  match conv with
  | .c2k => [(field, .num (celsiusToKelvin value))]
  | .d2r => [(field, .num (degToRad value))]
  | .mm2m => [(field, .num (mmToM value))]
  | .hpa2pa => [(field, .num (mbToPA value))]
  | .p2r => [(field, .num (percentToRatio value))]
  | .seastate =>
    [(field, .num value),
     ("douglas_seastate_description", .str (douglasSeaStateSimple value)),
     ("douglas_seastate_verbose", .str (douglasSeaStateVerbose value))]
  | .pass => [(field, .num value)]

/-- One raw field's contribution to an output record, per the source chain. -/
noncomputable def applyFieldConversion (field : String) (value : ℚ) :
    List (String × FVal) :=
  applyFieldConv (hourlyDailyFieldConv field) field value

/-! ## Geodesic predictor (lines 340-391) and haversine distance.
Navigation positions hold float (hence rational) coordinates; the projected
position is real-valued. -/

structure Position where
  latitude : ℚ
  longitude : ℚ
  timestamp : ℤ
deriving DecidableEq

structure RealPosition where
  latitude : ℝ
  longitude : ℝ
  timestamp : ℤ

open scoped Classical in

/-- JS `Math.atan2` on finite inputs (with `atan2 0 0 = 0`, matching
`Math.atan2(+0, +0)`). -/
noncomputable def atan2 (y x : ℝ) : ℝ :=
  if 0 < x then Real.arctan (y / x)
  else if x < 0 then
    (if 0 ≤ y then Real.arctan (y / x) + Real.pi else Real.arctan (y / x) - Real.pi)
  else if 0 < y then Real.pi / 2
  else if y < 0 then -(Real.pi / 2)
  else 0

/-- `calculateFuturePosition` (lines 341-382): great-circle destination from
`currentPos` on heading `headingRad` at `sogMps` m/s after `hoursAhead` hours
(the only call site passes the loop's hour counter, a natural number). -/
noncomputable def calculateFuturePosition (currentPos : Position)
    (headingRad sogMps : ℝ) (hoursAhead : ℕ) : RealPosition :=
  let distanceMeters := sogMps * hoursAhead * 3600
  let earthRadius : ℝ := 6371000
  let lat1 := degToRad currentPos.latitude
  let lon1 := degToRad currentPos.longitude
  let lat2 := Real.arcsin
    (Real.sin lat1 * Real.cos (distanceMeters / earthRadius) +
      Real.cos lat1 * Real.sin (distanceMeters / earthRadius) * Real.cos headingRad)
  let lon2 := lon1 + atan2
    (Real.sin headingRad * Real.sin (distanceMeters / earthRadius) * Real.cos lat1)
    (Real.cos (distanceMeters / earthRadius) - Real.sin lat1 * Real.sin lat2)
  { latitude := lat2 * (180 / Real.pi),
    longitude := lon2 * (180 / Real.pi),
    timestamp := currentPos.timestamp + (hoursAhead : ℤ) * 3600000 }

/-- `isVesselMoving` (lines 384-391): strictly greater than the threshold
converted from knots to m/s (source default threshold: 1.0 knot). -/
def isVesselMoving (sogMps : ℚ) (thresholdKnots : ℚ) : Bool :=
  sogMps > thresholdKnots * 0.514444

/-- The haversine distance in meters inlined in `shouldUpdateForecast`
(lines 1318-1334), R = 6,371,000 m. -/
noncomputable def haversineDistance (lat1 lon1 lat2 lon2 : ℚ) : ℝ :=
  let R : ℝ := 6371000
  let dLat := degToRad ((lat2 : ℝ) - (lat1 : ℝ))
  let dLon := degToRad ((lon2 : ℝ) - (lon1 : ℝ))
  let a := Real.sin (dLat / 2) * Real.sin (dLat / 2) +
    Real.cos (degToRad lat1) * Real.cos (degToRad lat2) *
      Real.sin (dLon / 2) * Real.sin (dLon / 2)
  let c := 2 * atan2 (Real.sqrt a) (Real.sqrt (1 - a))
  R * c

/-! ## Package field classifier (lines 1384-1546) -/

def getHourlyPackageFields (packageType : String) : List String :=
  if packageType == "basic" then
    ["temperature", "windspeed", "winddirection", "precipitation", "pictocode",
     "relativehumidity", "sealevelpressure", "surfaceairpressure", "uvindex",
     "felttemperature", "precipitation_probability", "isdaylight", "rainspot",
     "convective_precipitation", "snowfraction", "visibility", "dewpoint",
     "dewpointtemperature"]
  else if packageType == "wind" then
    ["windspeed", "winddirection", "gust", "windspeed_80m", "winddirection_80m",
     "airdensity", "surfaceairpressure", "sealevelpressure"]
  else if packageType == "sea" then
    ["seasurfacetemperature", "significantwaveheight", "surfwave_height",
     "windwave_height", "swell_significantheight", "mean_waveperiod",
     "windwave_meanperiod", "swell_meanperiod", "windwave_peakwaveperiod",
     "swell_peakwaveperiod", "mean_wavedirection", "windwave_direction",
     "swell_meandirection", "douglas_seastate", "wavesteepness",
     "currentvelocity_u", "currentvelocity_v", "salinity"]
  else if packageType == "solar" then
    ["uvindex", "sunshine_duration", "isdaylight", "solarradiation",
     "extraterrestrial_solar_radiation", "irradiance_direct_normal",
     "irradiance_diffuse_horizontal", "irradiance_global_horizontal"]
  else if packageType == "trend" then
    ["temperature", "precipitation", "windspeed", "winddirection",
     "pressure_trend", "temperature_trend", "windspeed_trend",
     "sealevelpressure_trend"]
  else if packageType == "clouds" then
    ["cloudcover", "total_cloud_cover", "low_cloud_cover", "mid_cloud_cover",
     "high_cloud_cover", "cloud_base_height", "cloud_top_height"]
  else []

def getDailyPackageFields (packageType : String) : List String :=
  if packageType == "basic" then
    ["temperature_max", "temperature_min", "temperature_mean", "windspeed_max",
     "windspeed_min", "windspeed_mean", "winddirection", "precipitation",
     "pictocode", "relativehumidity_max", "relativehumidity_min",
     "relativehumidity_mean", "sealevelpressure_max", "sealevelpressure_min",
     "sealevelpressure_mean", "uvindex", "felttemperature_max",
     "felttemperature_min", "felttemperature_mean", "precipitation_probability",
     "precipitation_hours", "snowfraction", "rainspot", "visibility_mean",
     "dewpoint_max", "dewpoint_min", "dewpoint_mean"]
  else if packageType == "wind" then
    ["windspeed_max", "windspeed_min", "windspeed_mean", "winddirection",
     "sealevelpressure_max", "sealevelpressure_min", "sealevelpressure_mean"]
  else if packageType == "sea" then
    ["temperature_max", "temperature_min"]
  else if packageType == "solar" then
    ["uvindex", "sunshine_duration", "solarradiation_max", "solarradiation_mean",
     "irradiance_direct_normal_max", "irradiance_diffuse_horizontal_max",
     "irradiance_global_horizontal_max"]
  else if packageType == "trend" then
    ["temperature_max", "temperature_min", "precipitation", "windspeed_max",
     "winddirection"]
  else if packageType == "clouds" then
    ["cloudcover_max", "cloudcover_min", "cloudcover_mean",
     "total_cloud_cover_max", "total_cloud_cover_min", "total_cloud_cover_mean",
     "low_cloud_cover_mean", "mid_cloud_cover_mean", "high_cloud_cover_mean"]
  else []

/-! ## Hourly and daily forecast processors (lines 1548-1746).
A provider data block is the parallel-array object `data_1h` / `data_day`:
a time array plus one value array per raw field (a `none` cell models a JS
`undefined` or `null` entry, which the processors skip). -/

structure DataBlock where
  time : List ℤ
  fields : List (String × List (Option ℚ))

/-- JS property access `data[field]`. -/
def blockField (data : DataBlock) (name : String) : Option (List (Option ℚ)) :=
  (data.fields.find? (fun p => p.1 == name)).map (fun p => p.2)

/-- JS `data[field]?.[idx]`. -/
def rawValueAt (data : DataBlock) (name : String) (idx : ℕ) : Option ℚ :=
  match blockField data name with
  | none => none
  | some arr => arr.getD idx none

structure HourlyRecord where
  timestamp : ℤ
  relativeHour : ℤ
  fields : List (String × FVal)

structure DailyRecord where
  date : ℤ
  dayOfWeek : String
  fields : List (String × FVal)

/-- The source's first-match index scan (`for ... if ... break`), returning
the index of the first element satisfying `p`. -/
def firstIndexSatisfying (p : ℤ → Bool) : List ℤ → Option ℕ
  | [] => none
  | t :: rest =>
    if p t then some 0 else (firstIndexSatisfying p rest).map (fun i => i + 1)

/-- The start-index computation of `processHourlyForecastForPackage`
(lines 1572-1594): first row at or after the current hour; if the scan found
nothing (`startIndex` still 0) and the first row is in the past, rescan for
the first row strictly after `now` (keeping 0 if none is found). -/
def hourlyStartIndex (tz now : ℤ) (time : List ℤ) : ℕ :=
  let currentHour := jsTruncToHour tz now
  let s1 := (firstIndexSatisfying (fun t => decide (currentHour ≤ t)) time).getD 0
  match time with
  | [] => s1
  | t0 :: _ =>
    if s1 = 0 ∧ t0 < currentHour then
      (firstIndexSatisfying (fun t => decide (now < t)) time).getD 0
    else s1

/-- The per-record field extraction loop (lines 1615-1653): walk the package's
owned field list, skip absent values, convert present ones. -/
noncomputable def extractFields (data : DataBlock) (allowedFields : List String)
    (idx : ℕ) : List (String × FVal) :=
  allowedFields.foldr (fun field acc =>
    match rawValueAt data field idx with
    | none => acc
    | some v => applyFieldConversion field v ++ acc) []

/-- `processHourlyForecastForPackage` (lines 1548-1662) for a frame with a
valid time array. -/
noncomputable def processHourlyForecastForPackage (tz now : ℤ) (data : DataBlock)
    (maxHours : ℕ) (packageType : String) : List HourlyRecord :=
  let allowedFields := getHourlyPackageFields packageType
  let startIndex := hourlyStartIndex tz now data.time
  let count := min (data.time.length - startIndex) maxHours
  (List.range count).map (fun i =>
    let dataIndex := startIndex + i
    let forecastTime := data.time.getD dataIndex 0
    { timestamp := forecastTime,
      relativeHour := jsRoundHours (forecastTime - now),
      fields := extractFields data allowedFields dataIndex })

def daysOfWeek : List String :=
  ["Sunday", "Monday", "Tuesday", "Wednesday", "Thursday", "Friday", "Saturday"]

/-- `processDailyForecastForPackage` (lines 1664-1746) for a frame with a
valid time array. -/
noncomputable def processDailyForecastForPackage (tz : ℤ) (data : DataBlock)
    (maxDays : ℕ) (packageType : String) : List DailyRecord :=
  let allowedFields := getDailyPackageFields packageType
  let count := min data.time.length maxDays
  (List.range count).map (fun i =>
    let forecastDate := data.time.getD i 0
    { date := forecastDate,
      dayOfWeek := daysOfWeek.getD (jsGetDay tz forecastDate).toNat "",
      fields := extractFields data allowedFields i })

/-- The concrete frame of the claim's test: a raw frame carrying both a wave
field and a temperature field. -/
def waveTempBlock : DataBlock :=
  ⟨[0], [("significantwaveheight", [some 2]), ("temperature", [some 10])]⟩

/-- A daily frame carrying a temperature extreme. -/
def dailyTempBlock : DataBlock := ⟨[0], [("temperature_max", [some 1])]⟩

/-- A provider frame whose rows all lie strictly before the current hour
(used against C10). -/
def pastBlock : DataBlock := ⟨[0, 3600000], []⟩

/-! ## Moving-assembler per-hour row selection (lines 1944-2000) -/

/-- The per-hour, per-package selection of `fetchForecastForMovingVessel`:
process the frame with `totalHoursNeeded = targetTime.getHours() + 1 + 2`
rows, then take the first processed row whose timestamp matches the target
time by local calendar year/month/day/hour. -/
noncomputable def movingTargetForecast (tz now : ℤ) (blk : DataBlock)
    (hour : ℕ) (packageType : String) : Option HourlyRecord :=
  let currentHour := jsTruncToHour tz now
  let targetTime := currentHour + hour * 3600000
  let totalHoursNeeded := (jsGetHours tz targetTime + 1 + 2).toNat
  (processHourlyForecastForPackage tz now blk totalHoursNeeded packageType).find?
    (fun f => sameLocalYMDH tz f.timestamp targetTime)

/-- The claim's failing input: a per-hour series of 30 rows starting at local
midnight (UTC, tz = 0), hourly spacing. -/
def c4Block : DataBlock := ⟨(List.range 30).map (fun i => (i : ℤ) * 3600000), []⟩

/-! ## Plugin configuration and session state (lines 36-45, 165-298, 2447-2478) -/

structure PluginConfig where
  meteoblueApiKey : String
  forecastInterval : ℚ
  altitude : ℚ
  maxForecastHours : ℕ
  maxForecastDays : ℕ
  movingSpeedThreshold : ℚ
  enableBasic1h : Bool
  enableBasicDay : Bool
  enableWind1h : Bool
  enableWindDay : Bool
  enableSea1h : Bool
  enableSeaDay : Bool
  enableSolar1h : Bool
  enableSolarDay : Bool
  enableTrend1h : Bool
  enableClouds1h : Bool
  enableCloudsDay : Bool

/-- `getEnabledPackages` (lines 1339-1355), in source push order. -/
def getEnabledPackages (config : PluginConfig) : List String :=
  (if config.enableBasic1h then ["basic-1h"] else []) ++
  (if config.enableBasicDay then ["basic-day"] else []) ++
  (if config.enableWind1h then ["wind-1h"] else []) ++
  (if config.enableWindDay then ["wind-day"] else []) ++
  (if config.enableSea1h then ["sea-1h"] else []) ++
  (if config.enableSeaDay then ["sea-day"] else []) ++
  (if config.enableSolar1h then ["solar-1h"] else []) ++
  (if config.enableSolarDay then ["solar-day"] else []) ++
  (if config.enableTrend1h then ["trend-1h"] else []) ++
  (if config.enableClouds1h then ["clouds-1h"] else []) ++
  (if config.enableCloudsDay then ["clouds-day"] else [])

/-- The enabled hourly package types: filter on "-1h" then strip the tag. -/
def hourlyPackageTypes (config : PluginConfig) : List String :=
  ((getEnabledPackages config).filter (fun pkg => strIncludes pkg "-1h")).map
    (fun pkg => stripPackageTag pkg "-1h")

/-- The enabled daily package types: filter on "-day" then strip the tag. -/
def dailyPackageTypes (config : PluginConfig) : List String :=
  ((getEnabledPackages config).filter (fun pkg => strIncludes pkg "-day")).map
    (fun pkg => stripPackageTag pkg "-day")

/-- The mutable session state (lines 36-45).  `lastForecastUpdate` is
initialised to 0 and the code's `!state.lastForecastUpdate` check treats 0 as
"no update recorded"; headings and speeds are float values, hence rational. -/
structure EngineState where
  currentPosition : Option Position
  currentHeading : Option ℚ
  currentSOG : Option ℚ
  movingForecastEngaged : Bool
  lastForecastUpdate : ℤ
  currentConfig : Option PluginConfig

/-- `state.currentConfig?.forecastInterval ?? 120` (line 1312). -/
def effectiveIntervalMinutes (st : EngineState) : ℚ :=
  match st.currentConfig with
  | some c => c.forecastInterval
  | none => 120

/-- `shouldUpdateForecast` (lines 1305-1337), early returns rendered as nested
conditionals: no stored position or no recorded update time → update; elapsed
time at least the interval → update; otherwise update iff the haversine
distance to the stored position exceeds 9,260 m. -/
def shouldUpdateForecast (now : ℤ) (st : EngineState) (position : Position) : Prop :=
  match st.currentPosition with
  | none => True
  | some p1 =>
    if st.lastForecastUpdate = 0 then True
    else if (((now - st.lastForecastUpdate : ℤ) : ℚ)) ≥
        effectiveIntervalMinutes st * 60 * 1000 then True
    else haversineDistance p1.latitude p1.longitude
        position.latitude position.longitude > 9260

/-! ## Engagement PUT handler (lines 2533-2581) -/

/-- A JS value arriving on the PUT boundary (`value: unknown`); only
`typeof value === "boolean"` is accepted. -/
inductive JSValue
  | boolean (b : Bool)
  | number (q : ℚ)
  | string (s : String)
  | nullValue
  | undefinedValue
deriving DecidableEq

/-- The handler's acknowledgement (also passed to the callback). -/
structure PutResult where
  state : String
  statusCode : Option ℕ
deriving DecidableEq

/-- The `commands.meteoblue.engaged` PUT handler body: booleans set the
engagement flag and complete; anything else fails with status 400 and leaves
the state untouched. -/
def handleEngagementPut (value : JSValue) (st : EngineState) :
    EngineState × PutResult :=
  match value with
  | .boolean b => ({ st with movingForecastEngaged := b }, ⟨"COMPLETED", none⟩)
  | _ => (st, ⟨"FAILURE", some 400⟩)

/-! ## Fetch cycles (lines 1884-2183).
Network effects are abstracted by an oracle giving each fetch's outcome
(`none` models a rejected fetch / non-ok response / parse error, i.e. the
paths that throw inside the `try`).  Each cycle returns the new state, the
published series, and the trace of issued provider fetches. -/

/-- One provider response: the optional hourly and daily blocks. -/
structure RawProviderFrame where
  data_1h : Option DataBlock
  data_day : Option DataBlock

/-- A stitched moving-vessel hourly record: the selected row augmented with
the predicted position and the `vesselMoving` flag (lines 1987-1991). -/
structure MovingHourlyRecord where
  base : HourlyRecord
  predictedLatitude : ℝ
  predictedLongitude : ℝ
  vesselMoving : Bool

inductive PublishedSeries
  | hourly (packageType : String) (records : List HourlyRecord)
  | daily (packageType : String) (records : List DailyRecord)
  | movingHourly (packageType : String) (records : List MovingHourlyRecord)

inductive FetchEvent
  | stationary (position : Position)
  | movingHour (hour : ℕ)
  | dailyAtCurrent

structure CycleResult where
  state : EngineState
  published : List PublishedSeries
  fetches : List FetchEvent

/-- The outcomes the environment would give each fetch of one cycle. -/
structure MovingFetchOracle where
  perHour : ℕ → Option RawProviderFrame
  daily : Except Unit (Option RawProviderFrame)
  fallback : Option RawProviderFrame

/-- `fetchForecast` (lines 2060-2183).  Branches, in source order: missing API
key → plain return (nothing advanced); dereferencing a missing position throws
inside the `try` before any fetch; `buildMeteoblueUrl` throws when no package
is enabled, before any fetch; a failed fetch/parse is caught — in every caught
branch `lastForecastUpdate` is still advanced (line 2181); on success both
bookkeeping fields are set and the per-package series are published. -/
noncomputable def fetchForecast (tz now : ℤ) (config : PluginConfig)
    (fetchResult : Option RawProviderFrame) (position? : Option Position)
    (st : EngineState) : CycleResult :=
  if config.meteoblueApiKey = "" then ⟨st, [], []⟩
  else
    match position? with
    | none => ⟨{ st with lastForecastUpdate := now }, [], []⟩
    | some position =>
      if getEnabledPackages config = [] then
        ⟨{ st with lastForecastUpdate := now }, [], []⟩
      else
        match fetchResult with
        | none => ⟨{ st with lastForecastUpdate := now }, [],
            [.stationary position]⟩
        | some frame =>
          let hourlyPubs :=
            match frame.data_1h with
            | some blk =>
              if hourlyPackageTypes config ≠ [] then
                (hourlyPackageTypes config).map (fun pt =>
                  PublishedSeries.hourly pt
                    (processHourlyForecastForPackage tz now blk
                      config.maxForecastHours pt))
              else []
            | none => []
          let dailyPubs :=
            match frame.data_day with
            | some blk =>
              if dailyPackageTypes config ≠ [] then
                (dailyPackageTypes config).map (fun pt =>
                  PublishedSeries.daily pt
                    (processDailyForecastForPackage tz blk
                      config.maxForecastDays pt))
              else []
            | none => []
          ⟨{ st with lastForecastUpdate := now, currentPosition := some position },
           hourlyPubs ++ dailyPubs, [.stationary position]⟩

/-- Append one stitched record to its package's accumulator entry. -/
def appendForecast (acc : List (String × List MovingHourlyRecord)) (pt : String)
    (rec : MovingHourlyRecord) : List (String × List MovingHourlyRecord) :=
  acc.map (fun pr => if pr.1 == pt then (pr.1, pr.2 ++ [rec]) else pr)

/-- After the per-hour loop (lines 2010-2051): publish the non-empty stitched
series, fetch daily data once at the *current* position, publish the daily
series when the response is usable, then record the completed cycle.  A
thrown daily fetch is caught and falls back to a stationary fetch (after the
hourly series were already published). -/
noncomputable def movingAfterLoop (tz now : ℤ) (config : PluginConfig)
    (oracle : MovingFetchOracle) (st : EngineState) (position : Position)
    (acc : List (String × List MovingHourlyRecord)) (evs : List FetchEvent) :
    CycleResult :=
  let pubs := acc.filterMap (fun pr =>
    if pr.2.isEmpty then none else some (PublishedSeries.movingHourly pr.1 pr.2))
  if getEnabledPackages config = [] then
    let fb := fetchForecast tz now config oracle.fallback (some position) st
    ⟨fb.state, pubs ++ fb.published, evs ++ fb.fetches⟩
  else
    match oracle.daily with
    | .error _ =>
      let fb := fetchForecast tz now config oracle.fallback (some position) st
      ⟨fb.state, pubs ++ fb.published,
       (evs ++ [FetchEvent.dailyAtCurrent]) ++ fb.fetches⟩
    | .ok dailyFrame =>
      let dailyPubs :=
        match dailyFrame with
        | none => []
        | some frame =>
          match frame.data_day with
          | none => []
          | some blk =>
            (dailyPackageTypes config).map (fun pt =>
              PublishedSeries.daily pt
                (processDailyForecastForPackage tz blk config.maxForecastDays pt))
      ⟨{ st with lastForecastUpdate := now, currentPosition := some position },
       pubs ++ dailyPubs, evs ++ [FetchEvent.dailyAtCurrent]⟩

/-- The per-hour loop of `fetchForecastForMovingVessel` (lines 1931-2008).
Each iteration: `buildMeteoblueUrl` throws when no package is enabled (caught
→ fallback, before any fetch); a failed per-hour fetch is caught → the whole
moving path is abandoned in favour of one stationary fallback fetch, without
publishing the accumulator; a successful fetch contributes, per enabled hourly
package, the row matching the target hour (if any), augmented with the
predicted position. -/
noncomputable def movingLoop (tz now : ℤ) (config : PluginConfig)
    (oracle : MovingFetchOracle) (st : EngineState) (position : Position)
    (heading sog : ℚ) :
    List ℕ → List (String × List MovingHourlyRecord) → List FetchEvent →
    CycleResult
  | [], acc, evs => movingAfterLoop tz now config oracle st position acc evs
  | hour :: rest, acc, evs =>
    if getEnabledPackages config = [] then
      let fb := fetchForecast tz now config oracle.fallback (some position) st
      ⟨fb.state, fb.published, evs ++ fb.fetches⟩
    else
      match oracle.perHour hour with
      | none =>
        let fb := fetchForecast tz now config oracle.fallback (some position) st
        ⟨fb.state, fb.published, (evs ++ [FetchEvent.movingHour hour]) ++ fb.fetches⟩
      | some frame =>
        let acc2 :=
          match frame.data_1h with
          | none => acc
          | some blk =>
            (hourlyPackageTypes config).foldl (fun a pt =>
              match movingTargetForecast tz now blk hour pt with
              | none => a
              | some f =>
                let predictedPos :=
                  calculateFuturePosition position (heading : ℝ) (sog : ℝ) hour
                appendForecast a pt
                  ⟨f, predictedPos.latitude, predictedPos.longitude, true⟩) acc
        movingLoop tz now config oracle st position heading sog rest acc2
          (evs ++ [FetchEvent.movingHour hour])

/-- `fetchForecastForMovingVessel` (lines 1884-2058): the guard falls back to
a stationary fetch when position, heading or SOG are missing or falsy (a
heading or SOG of exactly 0 is falsy in JS), when the vessel is not moving, or
when engagement is off; otherwise it runs the per-hour loop over hours
`0 .. maxForecastHours - 1`. -/
noncomputable def fetchForecastForMovingVessel (tz now : ℤ) (config : PluginConfig)
    (oracle : MovingFetchOracle) (st : EngineState) : CycleResult :=
  match st.currentPosition, st.currentHeading, st.currentSOG with
  | some position, some heading, some sog =>
    if heading = 0 ∨ sog = 0 ∨
        isVesselMoving sog config.movingSpeedThreshold = false ∨
        st.movingForecastEngaged = false then
      fetchForecast tz now config oracle.fallback st.currentPosition st
    else
      movingLoop tz now config oracle st position heading sog
        (List.range config.maxForecastHours)
        ((hourlyPackageTypes config).map (fun pt => (pt, []))) []
  | _, _, _ => fetchForecast tz now config oracle.fallback st.currentPosition st

/-! ## C3 helpers -/

def FetchEvent.isStationary : FetchEvent → Bool
  | .stationary _ => true
  | _ => false

def PublishedSeries.isMovingHourly : PublishedSeries → Bool
  | .movingHourly _ _ => true
  | _ => false

/-- Concrete configuration for the C3 witness: key set, basic-1h enabled,
two forecast hours. -/
def c3Config : PluginConfig :=
  ⟨"key", 120, 15, 2, 1, 1, true, false, false, false, false, false, false,
   false, false, false, false⟩

/-- Concrete engine state for the C3 witness: engaged, moving at 5 m/s,
heading 1 rad. -/
def c3State : EngineState := ⟨some ⟨1, 2, 0⟩, some 1, some 5, true, 0, none⟩

/-- Oracle whose every fetch fails. -/
def c3Oracle : MovingFetchOracle := ⟨fun _ => none, .ok none, none⟩

/-! ## Weather-Query Adapter reshaping (lines 604-797).
A stored forecast record is a partial map from field name to its
already-converted numeric value; the fixed external schema groups the output
into outside/wind/water/sun/current.  The pictocode-derived description/icon
strings and the `date` passthrough sit outside those groupings and are not
modelled. -/

/-- Property lookup on a stored record (JS `forecastData.key`). -/
def fdGet (d : List (String × ℚ)) (k : String) : Option ℚ :=
  (d.find? (fun p => p.1 == k)).map (fun p => p.2)

/-- JS truthiness of a number-or-undefined (0 and undefined are falsy). -/
def jsTruthy : Option ℚ → Bool
  | none => false
  | some q => q != 0

/-- JS `a || b` on numbers-or-undefined. -/
def jsOr (a b : Option ℚ) : Option ℚ := if jsTruthy a then a else b

structure WeatherOutside where
  temperature : Option ℚ
  pressure : Option ℚ
  relativeHumidity : Option ℚ
  uvIndex : Option ℚ
  cloudCover : Option ℚ
  precipitationVolume : Option ℚ
  feelsLikeTemperature : Option ℚ
  horizontalVisibility : Option ℚ
  dewPointTemperature : Option ℚ
  precipitationProbability : Option ℚ
  pressureTendency : Option String
  solarRadiation : Option ℚ
  directNormalIrradiance : Option ℚ
  diffuseHorizontalIrradiance : Option ℚ
  globalHorizontalIrradiance : Option ℚ
  extraterrestrialSolarRadiation : Option ℚ
  totalCloudCover : Option ℚ
  lowCloudCover : Option ℚ
  midCloudCover : Option ℚ
  highCloudCover : Option ℚ
  cloudBaseHeight : Option ℚ
  cloudTopHeight : Option ℚ
  maxTemperature : Option ℚ
  minTemperature : Option ℚ

structure WeatherWind where
  speedTrue : Option ℚ
  directionTrue : Option ℚ
  gust : Option ℚ
  averageSpeed : Option ℚ
  gustDirectionTrue : Option ℚ

structure WeatherWater where
  temperature : Option ℚ
  waveSignificantHeight : Option ℚ
  wavePeriod : Option ℚ
  waveDirection : Option ℚ
  swellHeight : Option ℚ
  swellPeriod : Option ℚ
  swellDirection : Option ℚ
  surfaceCurrentSpeed : Option ℝ
  surfaceCurrentDirection : Option ℝ
  salinity : Option ℚ
  seaState : Option ℚ
  surfaceWaveHeight : Option ℚ
  windWaveHeight : Option ℚ
  windWavePeriod : Option ℚ
  windWaveDirection : Option ℚ
  swellPeakPeriod : Option ℚ
  windWavePeakPeriod : Option ℚ
  waveSteepness : Option ℚ

structure WeatherSun where
  sunshineDuration : Option ℚ
  isDaylight : Option Bool

structure WeatherCurrent where
  drift : Option ℝ
  set : Option ℝ

/-- The reshaped output (`WeatherData`); `wtype` renders the `type` field. -/
structure WeatherData where
  wtype : String
  outside : WeatherOutside
  wind : WeatherWind
  water : WeatherWater
  sun : WeatherSun
  current : WeatherCurrent

/-- `convertToWeatherAPIObservation` (lines 604-710), groupings only. -/
noncomputable def convertToWeatherAPIObservation (d : List (String × ℚ)) :
    WeatherData :=
  { wtype := "observation",
    outside := {
      temperature := fdGet d "temperature",
      pressure := fdGet d "sealevelpressure",
      relativeHumidity := fdGet d "relativehumidity",
      uvIndex := fdGet d "uvindex",
      cloudCover := fdGet d "cloudcover",
      precipitationVolume := fdGet d "precipitation",
      feelsLikeTemperature := fdGet d "felttemperature",
      horizontalVisibility := fdGet d "visibility",
      dewPointTemperature := jsOr (fdGet d "dewpoint") (fdGet d "dewpointtemperature"),
      precipitationProbability := fdGet d "precipitation_probability",
      pressureTendency :=
        match jsOr (fdGet d "pressure_trend") (fdGet d "sealevelpressure_trend") with
        | some q =>
          some (if q > 0 then "increasing"
                else if q < 0 then "decreasing" else "steady")
        | none => none,
      solarRadiation := fdGet d "solarradiation",
      directNormalIrradiance := fdGet d "irradiance_direct_normal",
      diffuseHorizontalIrradiance := fdGet d "irradiance_diffuse_horizontal",
      globalHorizontalIrradiance := fdGet d "irradiance_global_horizontal",
      extraterrestrialSolarRadiation := fdGet d "extraterrestrial_solar_radiation",
      totalCloudCover := fdGet d "total_cloud_cover",
      lowCloudCover := fdGet d "low_cloud_cover",
      midCloudCover := fdGet d "mid_cloud_cover",
      highCloudCover := fdGet d "high_cloud_cover",
      cloudBaseHeight := fdGet d "cloud_base_height",
      cloudTopHeight := fdGet d "cloud_top_height",
      maxTemperature := none,
      minTemperature := none },
    wind := {
      speedTrue := fdGet d "windspeed",
      directionTrue := fdGet d "winddirection",
      gust := fdGet d "gust",
      averageSpeed := fdGet d "windspeed",
      gustDirectionTrue := fdGet d "gustdirection" },
    water := {
      temperature := fdGet d "seasurfacetemperature",
      waveSignificantHeight := fdGet d "significantwaveheight",
      wavePeriod := fdGet d "mean_waveperiod",
      waveDirection := fdGet d "mean_wavedirection",
      swellHeight := fdGet d "swell_significantheight",
      swellPeriod := fdGet d "swell_meanperiod",
      swellDirection := fdGet d "swell_meandirection",
      surfaceCurrentSpeed := some (Real.sqrt
        ((((fdGet d "currentvelocity_u").getD 0 : ℚ) : ℝ) ^ 2 +
          (((fdGet d "currentvelocity_v").getD 0 : ℚ) : ℝ) ^ 2)),
      surfaceCurrentDirection :=
        if jsTruthy (fdGet d "currentvelocity_u") &&
            jsTruthy (fdGet d "currentvelocity_v") then
          some (atan2 (((fdGet d "currentvelocity_v").getD 0 : ℚ) : ℝ)
            (((fdGet d "currentvelocity_u").getD 0 : ℚ) : ℝ))
        else none,
      salinity := fdGet d "salinity",
      seaState := fdGet d "douglas_seastate",
      surfaceWaveHeight := fdGet d "surfwave_height",
      windWaveHeight := fdGet d "windwave_height",
      windWavePeriod := fdGet d "windwave_meanperiod",
      windWaveDirection := fdGet d "windwave_direction",
      swellPeakPeriod := fdGet d "swell_peakwaveperiod",
      windWavePeakPeriod := fdGet d "windwave_peakwaveperiod",
      waveSteepness := fdGet d "wavesteepness" },
    sun := {
      sunshineDuration := fdGet d "sunshine_duration",
      isDaylight := some (fdGet d "isdaylight" == some 1) },
    current := {
      drift := some (Real.sqrt
        ((((fdGet d "currentvelocity_u").getD 0 : ℚ) : ℝ) ^ 2 +
          (((fdGet d "currentvelocity_v").getD 0 : ℚ) : ℝ) ^ 2)),
      set :=
        if jsTruthy (fdGet d "currentvelocity_u") &&
            jsTruthy (fdGet d "currentvelocity_v") then
          some (atan2 (((fdGet d "currentvelocity_v").getD 0 : ℚ) : ℝ)
            (((fdGet d "currentvelocity_u").getD 0 : ℚ) : ℝ))
        else none } }

/-- The daily branch of `convertToWeatherAPIForecast` (lines 716-789). -/
noncomputable def convertToWeatherAPIForecastDaily (d : List (String × ℚ)) :
    WeatherData :=
  { wtype := "daily",
    outside := {
      temperature := fdGet d "temperature_mean",
      maxTemperature := fdGet d "temperature_max",
      minTemperature := fdGet d "temperature_min",
      feelsLikeTemperature := fdGet d "felttemperature_mean",
      pressure := fdGet d "sealevelpressure_mean",
      relativeHumidity := fdGet d "relativehumidity_mean",
      uvIndex := fdGet d "uvindex",
      precipitationVolume := fdGet d "precipitation",
      dewPointTemperature := fdGet d "dewpoint_mean",
      horizontalVisibility := fdGet d "visibility_mean",
      precipitationProbability := fdGet d "precipitation_probability",
      cloudCover := fdGet d "cloudcover_mean",
      totalCloudCover := fdGet d "total_cloud_cover_mean",
      lowCloudCover := fdGet d "low_cloud_cover_mean",
      midCloudCover := fdGet d "mid_cloud_cover_mean",
      highCloudCover := fdGet d "high_cloud_cover_mean",
      solarRadiation := fdGet d "solarradiation_mean",
      directNormalIrradiance := fdGet d "irradiance_direct_normal_max",
      diffuseHorizontalIrradiance := fdGet d "irradiance_diffuse_horizontal_max",
      globalHorizontalIrradiance := fdGet d "irradiance_global_horizontal_max",
      pressureTendency := none,
      extraterrestrialSolarRadiation := none,
      cloudBaseHeight := none,
      cloudTopHeight := none },
    wind := {
      speedTrue := fdGet d "windspeed_max",
      directionTrue := fdGet d "winddirection",
      averageSpeed := fdGet d "windspeed_mean",
      gust := none,
      gustDirectionTrue := none },
    water := {
      temperature := fdGet d "seasurfacetemperature_mean",
      waveSignificantHeight := none,
      wavePeriod := none,
      waveDirection := none,
      swellHeight := none,
      swellPeriod := none,
      swellDirection := none,
      surfaceCurrentSpeed := some (Real.sqrt
        ((((fdGet d "currentvelocity_u").getD 0 : ℚ) : ℝ) ^ 2 +
          (((fdGet d "currentvelocity_v").getD 0 : ℚ) : ℝ) ^ 2)),
      surfaceCurrentDirection :=
        if jsTruthy (fdGet d "currentvelocity_u") &&
            jsTruthy (fdGet d "currentvelocity_v") then
          some (atan2 (((fdGet d "currentvelocity_v").getD 0 : ℚ) : ℝ)
            (((fdGet d "currentvelocity_u").getD 0 : ℚ) : ℝ))
        else none,
      salinity := none,
      seaState := none,
      surfaceWaveHeight := none,
      windWaveHeight := none,
      windWavePeriod := none,
      windWaveDirection := none,
      swellPeakPeriod := none,
      windWavePeakPeriod := none,
      waveSteepness := none },
    sun := {
      sunshineDuration := fdGet d "sunshine_duration",
      isDaylight := none },
    current := {
      drift := some (Real.sqrt
        ((((fdGet d "currentvelocity_u").getD 0 : ℚ) : ℝ) ^ 2 +
          (((fdGet d "currentvelocity_v").getD 0 : ℚ) : ℝ) ^ 2)),
      set :=
        if jsTruthy (fdGet d "currentvelocity_u") &&
            jsTruthy (fdGet d "currentvelocity_v") then
          some (atan2 (((fdGet d "currentvelocity_v").getD 0 : ℚ) : ℝ)
            (((fdGet d "currentvelocity_u").getD 0 : ℚ) : ℝ))
        else none } }

/-- `convertToWeatherAPIForecast` (lines 712-797): daily uses the daily
mapping; any other type reuses the observation mapping with the type
relabelled. -/
noncomputable def convertToWeatherAPIForecast (d : List (String × ℚ))
    (ftype : String) : WeatherData :=
  if ftype == "daily" then convertToWeatherAPIForecastDaily d
  else { convertToWeatherAPIObservation d with wtype := ftype }

/-! ## C1 helper: the source chain agrees with the amended spec chain -/

theorem hourlyDailyFieldConv_eq_amended (f : String) :
    hourlyDailyFieldConv f = specFieldConvAmended f := by
  have hfelt : strIncludes f "temperature" = false → (f == "felttemperature") = false := by
    intro h
    rcases hb : f == "felttemperature" with _ | _
    · rfl
    · rw [eq_of_beq hb] at h; exact absurd h (by decide)
  have hwdir : strIncludes f "direction" = false → (f == "winddirection") = false := by
    intro h
    rcases hb : f == "winddirection" with _ | _
    · rfl
    · rw [eq_of_beq hb] at h; exact absurd h (by decide)
  have hslp : strIncludes f "pressure" = false → (f == "sealevelpressure") = false := by
    intro h
    rcases hb : f == "sealevelpressure" with _ | _
    · rfl
    · rw [eq_of_beq hb] at h; exact absurd h (by decide)
  unfold hourlyDailyFieldConv specFieldConvAmended
  by_cases h1 : strIncludes f "temperature" = true
  · simp [h1]
  · rw [Bool.not_eq_true] at h1
    simp only [h1, hfelt h1, Bool.or_self, Bool.false_eq_true, if_false]
    by_cases h2 : strIncludes f "direction" = true
    · simp [h2]
    · rw [Bool.not_eq_true] at h2
      simp only [h2, hwdir h2, Bool.or_self, Bool.false_eq_true, if_false]
      by_cases h3 : (f == "precipitation" || f == "convective_precipitation") = true
      · simp [h3]
      · rw [Bool.not_eq_true] at h3
        simp only [h3, Bool.false_eq_true, if_false]
        by_cases h4 : strIncludes f "pressure" = true
        · simp [h4]
        · rw [Bool.not_eq_true] at h4
          simp only [h4, hslp h4, Bool.or_self, Bool.false_eq_true, if_false]
          by_cases h5a : strIncludes f "humidity" = true
          · simp [h5a]
          · rw [Bool.not_eq_true] at h5a
            by_cases h5b : strIncludes f "cloudcover" = true
            · simp [h5a, h5b]
            · rw [Bool.not_eq_true] at h5b
              by_cases h5c : strIncludes f "precipitation_probability" = true
              · simp [h5a, h5b, h5c]
              · rw [Bool.not_eq_true] at h5c
                simp [h5a, h5b, h5c]

/-- C1 (counterexample): the claim's dispatch assigns percent-to-ratio to any
name ending in "probability", but the code's chain checks containment of
"precipitation_probability": the field "thunderstorm_probability" is converted
by the claimed dispatch and passed through unconverted by the code. -/
theorem c1_counterexample :
    specFieldConv "thunderstorm_probability" = FieldConv.p2r ∧
    hourlyDailyFieldConv "thunderstorm_probability" = FieldConv.pass ∧
    hourlyDailyFieldConv "thunderstorm_probability" ≠
      specFieldConv "thunderstorm_probability" := by decide

/-- C1 (amended): for every raw field name and value, the hourly/daily
field-to-conversion chain applies exactly the conversion selected by the
documented precedence order — temperature, then direction, then the exact
names precipitation / convective_precipitation, then pressure, then
humidity / cloudcover / names containing "precipitation_probability"
(amendment: the original claim said "ending in probability"), then the
douglas_seastate pass-through with its two derived description fields, and
pass-through otherwise. -/
theorem c1_conversion_dispatch (field : String) (value : ℚ) :
    applyFieldConversion field value =
      applyFieldConv (specFieldConvAmended field) field value := by
  rw [applyFieldConversion, hourlyDailyFieldConv_eq_amended]

/-! ## C8: Douglas sea state description functions -/

theorem jsRound_intCast (z : ℤ) : jsRound (z : ℚ) = z := by
  unfold jsRound
  rw [Int.floor_int_add]
  norm_num

/-- C8: every input is first rounded to the nearest integer (the lookup result
only depends on `jsRound scale`); out-of-range rounded values fall through to
the "Unknown" fallback in both the terse and the verbose table; and on the
fixed table, `douglasSeaStateSimple 4 = "Moderate"` while
`douglasSeaStateSimple 11 = "Unknown"`. -/
theorem c8_douglas_descriptions (scale : ℚ) :
    ((jsRound scale < 0 ∨ 9 < jsRound scale) →
      douglasSeaStateSimple scale = "Unknown" ∧
      douglasSeaStateVerbose scale = "Unknown (" ++ toString scale ++ ")") ∧
    douglasSeaStateSimple scale = douglasSeaStateSimple ((jsRound scale : ℤ) : ℚ) ∧
    douglasSeaStateSimple 4 = "Moderate" ∧
    douglasSeaStateSimple 11 = "Unknown" := by
  have h4 : jsRound 4 = 4 := by norm_num [jsRound]
  have h11 : jsRound 11 = 11 := by norm_num [jsRound]
  refine ⟨?_, ?_,
    by simp [douglasSeaStateSimple, douglasSimpleDescriptions, h4, List.find?],
    by simp [douglasSeaStateSimple, douglasSimpleDescriptions, h11, List.find?]⟩
  · intro h
    have hs : douglasSimpleDescriptions.find? (fun p => p.1 == jsRound scale) = none := by
      rw [List.find?_eq_none]
      intro p hp
      fin_cases hp <;> simp <;> omega
    have hv : douglasVerboseDescriptions.find? (fun p => p.1 == jsRound scale) = none := by
      rw [List.find?_eq_none]
      intro p hp
      fin_cases hp <;> simp <;> omega
    rw [douglasSeaStateSimple, hs, douglasSeaStateVerbose, hv]
    exact ⟨rfl, rfl⟩
  · rw [douglasSeaStateSimple, douglasSeaStateSimple, jsRound_intCast]

/-- C8 witness: the theorem applied at the concrete out-of-range input 11. -/
theorem c8_douglas_descriptions_witness :
    douglasSeaStateSimple 11 = "Unknown" ∧
    douglasSeaStateVerbose 11 = "Unknown (" ++ toString (11 : ℚ) ++ ")" :=
  (c8_douglas_descriptions 11).1 (Or.inr (by norm_num [jsRound]))

theorem atan2_zero_of_nonneg (x : ℝ) (hx : 0 ≤ x) : atan2 0 x = 0 := by
  unfold atan2
  rcases lt_or_eq_of_le hx with h | h
  · rw [if_pos h, zero_div, Real.arctan_zero]
  · rw [if_neg (by rw [← h]; exact lt_irrefl 0),
      if_neg (by rw [← h]; exact lt_irrefl 0), if_neg (lt_irrefl 0),
      if_neg (lt_irrefl 0)]

/-- C7: for every origin position (latitude in the valid decimal-degree range)
and every heading and speed, `calculateFuturePosition` with `hoursAhead = 0`
returns the origin unchanged. -/
theorem c7_zero_hours_is_identity (pos : Position) (headingRad sogMps : ℝ)
    (hlat1 : -90 ≤ pos.latitude) (hlat2 : pos.latitude ≤ 90) :
    (calculateFuturePosition pos headingRad sogMps 0).latitude = (pos.latitude : ℝ) ∧
    (calculateFuturePosition pos headingRad sogMps 0).longitude = (pos.longitude : ℝ) ∧
    (calculateFuturePosition pos headingRad sogMps 0).timestamp = pos.timestamp := by
  have hq1 : (-90 : ℝ) ≤ (pos.latitude : ℝ) := by exact_mod_cast hlat1
  have hq2 : ((pos.latitude : ℝ)) ≤ 90 := by exact_mod_cast hlat2
  have hpi := Real.pi_pos
  have hb1 : -(Real.pi / 2) ≤ (pos.latitude : ℝ) * (Real.pi / 180) := by nlinarith
  have hb2 : (pos.latitude : ℝ) * (Real.pi / 180) ≤ Real.pi / 2 := by nlinarith
  have harcsin : Real.arcsin (Real.sin ((pos.latitude : ℝ) * (Real.pi / 180)))
      = (pos.latitude : ℝ) * (Real.pi / 180) := Real.arcsin_sin hb1 hb2
  simp only [calculateFuturePosition, degToRad, Nat.cast_zero, mul_zero, zero_mul,
    zero_div, Real.cos_zero, Real.sin_zero, mul_one, add_zero, zero_add, Int.ofNat_zero]
  refine ⟨?_, ?_, by simp⟩
  · rw [harcsin]
    field_simp
  · rw [harcsin]
    have hx : (0 : ℝ) ≤ 1 - Real.sin ((pos.latitude : ℝ) * (Real.pi / 180)) *
        Real.sin ((pos.latitude : ℝ) * (Real.pi / 180)) := by
      nlinarith [Real.sin_sq_add_cos_sq ((pos.latitude : ℝ) * (Real.pi / 180)),
        sq_nonneg (Real.cos ((pos.latitude : ℝ) * (Real.pi / 180)))]
    rw [atan2_zero_of_nonneg _ hx, add_zero]
    field_simp

/-- C7 witness: the theorem applied at the concrete origin (10°, 20°). -/
theorem c7_zero_hours_is_identity_witness :
    (calculateFuturePosition ⟨10, 20, 5⟩ 1 3 0).latitude = ((10 : ℚ) : ℝ) ∧
    (calculateFuturePosition ⟨10, 20, 5⟩ 1 3 0).longitude = ((20 : ℚ) : ℝ) ∧
    (calculateFuturePosition ⟨10, 20, 5⟩ 1 3 0).timestamp = (5 : ℤ) :=
  c7_zero_hours_is_identity ⟨10, 20, 5⟩ 1 3 (by norm_num) (by norm_num)

/-! ## C6 helpers -/

theorem fieldConv_seastate_name (f : String)
    (h : hourlyDailyFieldConv f = FieldConv.seastate) : f = "douglas_seastate" := by
  unfold hourlyDailyFieldConv at h
  split_ifs at h
  all_goals simp_all

theorem mem_applyFieldConversion (f : String) (v : ℚ) (p : String × FVal)
    (hp : p ∈ applyFieldConversion f v) :
    p.1 = f ∨ (f = "douglas_seastate" ∧
      (p.1 = "douglas_seastate_description" ∨ p.1 = "douglas_seastate_verbose")) := by
  unfold applyFieldConversion at hp
  cases hcv : hourlyDailyFieldConv f <;> rw [hcv] at hp <;>
    simp only [applyFieldConv, List.mem_singleton, List.mem_cons,
      List.not_mem_nil, or_false] at hp
  case c2k => left; rw [hp]
  case d2r => left; rw [hp]
  case mm2m => left; rw [hp]
  case hpa2pa => left; rw [hp]
  case p2r => left; rw [hp]
  case pass => left; rw [hp]
  case seastate =>
    have hf := fieldConv_seastate_name f hcv
    rcases hp with h | h | h
    · left; rw [h]
    · exact Or.inr ⟨hf, Or.inl (by rw [h])⟩
    · exact Or.inr ⟨hf, Or.inr (by rw [h])⟩

theorem mem_extractFields (data : DataBlock) (idx : ℕ) (fields : List String) :
    ∀ p : String × FVal, p ∈ extractFields data fields idx →
      ∃ f ∈ fields, ∃ v, rawValueAt data f idx = some v ∧
        p ∈ applyFieldConversion f v := by
  induction fields with
  | nil => intro p hp; simp [extractFields] at hp
  | cons f rest ih =>
    intro p hp
    unfold extractFields at hp
    simp only [List.foldr_cons] at hp
    rcases hv : rawValueAt data f idx with _ | v <;> rw [hv] at hp
    · obtain ⟨g, hg, w, hw⟩ := ih p hp
      exact ⟨g, List.mem_cons_of_mem _ hg, w, hw⟩
    · rcases List.mem_append.mp hp with h | h
      · exact ⟨f, List.mem_cons_self f rest, v, hv, h⟩
      · obtain ⟨g, hg, w, hw⟩ := ih p h
        exact ⟨g, List.mem_cons_of_mem _ hg, w, hw⟩

/-- C6: the per-package hourly/daily processors emit only fields owned by the
package (the two derived Douglas description strings, which C1 documents, can
appear exactly when the owned `douglas_seastate` field does); in particular,
for a frame containing `significantwaveheight` and `temperature` arrays, the
"basic" output holds only `temperature` and the "sea" output holds only
`significantwaveheight`. -/
theorem c6_package_field_scoping :
    (∀ tz now data maxHours pkg (rec : HourlyRecord) (p : String × FVal),
       rec ∈ processHourlyForecastForPackage tz now data maxHours pkg →
       p ∈ rec.fields →
       p.1 ∈ getHourlyPackageFields pkg ∨
       (("douglas_seastate" : String) ∈ getHourlyPackageFields pkg ∧
         (p.1 = "douglas_seastate_description" ∨ p.1 = "douglas_seastate_verbose"))) ∧
    (∀ tz data maxDays pkg (rec : DailyRecord) (p : String × FVal),
       rec ∈ processDailyForecastForPackage tz data maxDays pkg →
       p ∈ rec.fields →
       p.1 ∈ getDailyPackageFields pkg ∨
       (("douglas_seastate" : String) ∈ getDailyPackageFields pkg ∧
         (p.1 = "douglas_seastate_description" ∨ p.1 = "douglas_seastate_verbose"))) ∧
    (processHourlyForecastForPackage 0 0 waveTempBlock 1 "basic").map
        (fun r => r.fields.map Prod.fst) = [["temperature"]] ∧
    (processHourlyForecastForPackage 0 0 waveTempBlock 1 "sea").map
        (fun r => r.fields.map Prod.fst) = [["significantwaveheight"]] := by
  refine ⟨?_, ?_, by decide, by decide⟩
  · intro tz now data maxHours pkg rec p hrec hp
    obtain ⟨i, hi, rfl⟩ := List.mem_map.mp hrec
    obtain ⟨f, hf, v, hv, hpf⟩ :=
      mem_extractFields data (hourlyStartIndex tz now data.time + i)
        (getHourlyPackageFields pkg) p hp
    rcases mem_applyFieldConversion f v p hpf with h | ⟨hd, hnm⟩
    · left; rw [h]; exact hf
    · right; exact ⟨hd ▸ hf, hnm⟩
  · intro tz data maxDays pkg rec p hrec hp
    obtain ⟨i, hi, rfl⟩ := List.mem_map.mp hrec
    obtain ⟨f, hf, v, hv, hpf⟩ :=
      mem_extractFields data i (getDailyPackageFields pkg) p hp
    rcases mem_applyFieldConversion f v p hpf with h | ⟨hd, hnm⟩
    · left; rw [h]; exact hf
    · right; exact ⟨hd ▸ hf, hnm⟩

/-- C6 witness: the scoping theorem applied to the first emitted field pair of
the "sea" hourly output and of the "sea" daily output on concrete frames. -/
theorem c6_package_field_scoping_witness :
    ((((processHourlyForecastForPackage 0 0 waveTempBlock 1 "sea").get
        ⟨0, by decide⟩).fields.get ⟨0, by decide⟩).1 ∈ getHourlyPackageFields "sea" ∨
      (("douglas_seastate" : String) ∈ getHourlyPackageFields "sea" ∧
        ((((processHourlyForecastForPackage 0 0 waveTempBlock 1 "sea").get
            ⟨0, by decide⟩).fields.get ⟨0, by decide⟩).1 = "douglas_seastate_description" ∨
         (((processHourlyForecastForPackage 0 0 waveTempBlock 1 "sea").get
            ⟨0, by decide⟩).fields.get ⟨0, by decide⟩).1 = "douglas_seastate_verbose"))) ∧
    ((((processDailyForecastForPackage 0 dailyTempBlock 1 "sea").get
        ⟨0, by decide⟩).fields.get ⟨0, by decide⟩).1 ∈ getDailyPackageFields "sea" ∨
      (("douglas_seastate" : String) ∈ getDailyPackageFields "sea" ∧
        ((((processDailyForecastForPackage 0 dailyTempBlock 1 "sea").get
            ⟨0, by decide⟩).fields.get ⟨0, by decide⟩).1 = "douglas_seastate_description" ∨
         (((processDailyForecastForPackage 0 dailyTempBlock 1 "sea").get
            ⟨0, by decide⟩).fields.get ⟨0, by decide⟩).1 = "douglas_seastate_verbose"))) :=
  ⟨c6_package_field_scoping.1 0 0 waveTempBlock 1 "sea" _ _
      (List.get_mem _ _ _) (List.get_mem _ _ _),
   c6_package_field_scoping.2.1 0 dailyTempBlock 1 "sea" _ _
      (List.get_mem _ _ _) (List.get_mem _ _ _)⟩

/-! ## C10 helpers: the first-match scan and the start index -/

theorem firstIndexSatisfying_eq_none_iff (p : ℤ → Bool) (l : List ℤ) :
    firstIndexSatisfying p l = none ↔ ∀ t ∈ l, p t = false := by
  induction l with
  | nil => simp [firstIndexSatisfying]
  | cons t rest ih =>
    unfold firstIndexSatisfying
    by_cases hp : p t
    · simp [hp]
    · simp only [if_neg hp, Option.map_eq_none', ih, List.mem_cons]
      constructor
      · rintro h x (rfl | hx)
        · exact Bool.eq_false_iff.mpr hp
        · exact h x hx
      · intro h x hx
        exact h x (Or.inr hx)

theorem firstIndexSatisfying_eq_some (p : ℤ → Bool) (l : List ℤ) :
    ∀ i, firstIndexSatisfying p l = some i →
      i < l.length ∧ p (l.getD i 0) = true ∧ ∀ j < i, p (l.getD j 0) = false := by
  induction l with
  | nil => intro i h; simp [firstIndexSatisfying] at h
  | cons t rest ih =>
    intro i h
    unfold firstIndexSatisfying at h
    by_cases hp : p t
    · rw [if_pos hp] at h
      injection h with h
      subst h
      exact ⟨Nat.succ_pos _, hp, fun j hj => absurd hj (Nat.not_lt_zero j)⟩
    · rw [if_neg hp] at h
      obtain ⟨i0, hi0, rfl⟩ := Option.map_eq_some'.mp h
      obtain ⟨hlt, hpi, hprev⟩ := ih i0 hi0
      refine ⟨Nat.succ_lt_succ hlt, by simpa using hpi, ?_⟩
      intro j hj
      cases j with
      | zero => simpa using Bool.eq_false_iff.mpr hp
      | succ j0 => simpa using hprev j0 (Nat.lt_of_succ_lt_succ hj)

theorem jsTruncToHour_le (tz now : ℤ) : jsTruncToHour tz now ≤ now := by
  unfold jsTruncToHour
  have h1 : 0 ≤ (now + tz) % 3600000 := Int.emod_nonneg _ (by norm_num)
  have h2 := Int.ediv_add_emod (now + tz) 3600000
  have h3 : (now + tz).fdiv 3600000 = (now + tz) / 3600000 :=
    Int.fdiv_eq_ediv _ (by norm_num)
  omega

/-- The start-index scan resolves in exactly one of two ways: it is the first
index at or after the current hour, or every row is before the current hour
and it is 0. -/
theorem hourlyStartIndex_cases (tz now : ℤ) (time : List ℤ) :
    some (hourlyStartIndex tz now time) =
      firstIndexSatisfying (fun t => decide (jsTruncToHour tz now ≤ t)) time ∨
    ((∀ t ∈ time, t < jsTruncToHour tz now) ∧ hourlyStartIndex tz now time = 0) := by
  unfold hourlyStartIndex
  cases htime : time with
  | nil => exact Or.inr ⟨by simp, by simp [firstIndexSatisfying]⟩
  | cons t0 rest =>
    cases hF : firstIndexSatisfying (fun t => decide (jsTruncToHour tz now ≤ t)) (t0 :: rest) with
    | none =>
      have hall : ∀ t ∈ t0 :: rest, t < jsTruncToHour tz now := by
        intro t ht
        have := (firstIndexSatisfying_eq_none_iff _ _).mp hF t ht
        simpa using this
      have ht0 : t0 < jsTruncToHour tz now := hall t0 (List.mem_cons_self _ _)
      have hnone2 : firstIndexSatisfying (fun t => decide (now < t)) (t0 :: rest) = none := by
        rw [firstIndexSatisfying_eq_none_iff]
        intro t ht
        have h1 := hall t ht
        have h2 := jsTruncToHour_le tz now
        simp only [decide_eq_false_iff_not, not_lt]
        omega
      refine Or.inr ⟨hall, ?_⟩
      simp [hF, hnone2, ht0]
    | some i =>
      refine Or.inl ?_
      obtain ⟨hlt, hpi, hprev⟩ := firstIndexSatisfying_eq_some _ _ i hF
      cases i with
      | zero =>
        have ht0 : jsTruncToHour tz now ≤ t0 := by simpa using hpi
        simp [hF, not_lt.mpr ht0]
      | succ i0 =>
        simp [hF]

/-- C10 (counterexample): at now = 1970-01-01T02:00Z with both provider rows
in the past, the stationary hourly processor emits both past rows (the claim
requires rows before the current hour to be skipped, i.e. an empty output
here). -/
theorem c10_counterexample :
    (∀ t ∈ pastBlock.time, t < jsTruncToHour 0 7200000) ∧
    (processHourlyForecastForPackage 0 7200000 pastBlock 5 "basic").map
      (fun r => r.timestamp) = [0, 3600000] := by
  exact ⟨by decide, by decide⟩

/-- C10 (amended): the stationary hourly processor emits
`min (rows from startIndex, maxHours)` records taken contiguously from
`startIndex`, where `startIndex` is the first row at or after the current
wall-clock hour when such a row exists; when the series is non-empty and lies
entirely before the current hour, `startIndex` falls back to 0 (the past rows
are emitted — amendment of the claim, which said they are never emitted). -/
theorem c10_hourly_start_and_count (tz now : ℤ) (data : DataBlock)
    (maxHours : ℕ) (pkg : String) :
    (processHourlyForecastForPackage tz now data maxHours pkg).length
      = min (data.time.length - hourlyStartIndex tz now data.time) maxHours ∧
    (∀ i, ∀ h : i < (processHourlyForecastForPackage tz now data maxHours pkg).length,
       ((processHourlyForecastForPackage tz now data maxHours pkg).get ⟨i, h⟩).timestamp
         = data.time.getD (hourlyStartIndex tz now data.time + i) 0) ∧
    ((∃ t ∈ data.time, jsTruncToHour tz now ≤ t) →
       hourlyStartIndex tz now data.time < data.time.length ∧
       jsTruncToHour tz now ≤ data.time.getD (hourlyStartIndex tz now data.time) 0 ∧
       ∀ j < hourlyStartIndex tz now data.time,
         data.time.getD j 0 < jsTruncToHour tz now) ∧
    ((∀ t ∈ data.time, t < jsTruncToHour tz now) →
       hourlyStartIndex tz now data.time = 0) := by
  refine ⟨?_, ?_, ?_, ?_⟩
  · simp [processHourlyForecastForPackage]
  · intro i h
    simp [processHourlyForecastForPackage, List.get_eq_getElem, List.getElem_map,
      List.getElem_range]
  · intro hex
    rcases hourlyStartIndex_cases tz now data.time with hcase | ⟨hall, h0⟩
    · obtain ⟨hlt, hpi, hprev⟩ := firstIndexSatisfying_eq_some _ _ _ hcase.symm
      exact ⟨hlt, by simpa using hpi, fun j hj => by simpa using hprev j hj⟩
    · obtain ⟨t, ht, hle⟩ := hex
      exact absurd hle (not_le.mpr (hall t ht))
  · intro hall
    rcases hourlyStartIndex_cases tz now data.time with hcase | ⟨_, h0⟩
    · have hnone : firstIndexSatisfying
          (fun t => decide (jsTruncToHour tz now ≤ t)) data.time = none :=
        (firstIndexSatisfying_eq_none_iff _ _).mpr
          (fun t ht => by simp [not_le.mpr (hall t ht)])
      rw [hnone] at hcase
      exact absurd hcase (by simp)
    · exact h0

/-- C10 witness: the amended theorem applied to a one-row series at the
current hour and to the all-past series. -/
theorem c10_hourly_start_and_count_witness :
    (hourlyStartIndex 0 0 waveTempBlock.time < waveTempBlock.time.length ∧
     jsTruncToHour 0 0 ≤
       waveTempBlock.time.getD (hourlyStartIndex 0 0 waveTempBlock.time) 0 ∧
     ∀ j < hourlyStartIndex 0 0 waveTempBlock.time,
       waveTempBlock.time.getD j 0 < jsTruncToHour 0 0) ∧
    hourlyStartIndex 0 7200000 pastBlock.time = 0 :=
  ⟨(c10_hourly_start_and_count 0 0 waveTempBlock 1 "basic").2.2.1
      ⟨0, by decide, by decide⟩,
   (c10_hourly_start_and_count 0 7200000 pastBlock 5 "basic").2.2.2 (by decide)⟩

/-- C4 (failing-input evaluation): at local time 10:00 with hour offset 14 the
target hour is next-day 00:00; the series contains a row matching that target
by calendar year/month/day/hour (raw index 24), yet the selection returns no
row, because the search window `targetTime.getHours() + 3 = 3` rows starting
at the current hour ends at 12:00. -/
theorem c4_code_bug_eval :
    ((86400000 : ℤ) ∈ c4Block.time ∧
     sameLocalYMDH 0 86400000 (jsTruncToHour 0 36000000 + 14 * 3600000) = true) ∧
    (movingTargetForecast 0 36000000 c4Block 14 "basic").isNone = true := by
  exact ⟨⟨by decide, by decide⟩, by decide⟩

/-- C2: the refresh decision is exactly the three-way disjunction of the
claim — no prior update recorded (no stored position, or the update-time
sentinel 0), elapsed wall-clock time at least the configured interval, or
haversine distance (R = 6,371,000 m) above 9,260 m; it is false otherwise. -/
theorem c2_shouldUpdateForecast_iff (now : ℤ) (st : EngineState) (position : Position) :
    shouldUpdateForecast now st position ↔
      st.currentPosition = none ∨ st.lastForecastUpdate = 0 ∨
      (((now - st.lastForecastUpdate : ℤ) : ℚ) ≥
        effectiveIntervalMinutes st * 60 * 1000) ∨
      (∃ p1, st.currentPosition = some p1 ∧
        haversineDistance p1.latitude p1.longitude
          position.latitude position.longitude > 9260) := by
  unfold shouldUpdateForecast
  cases hcp : st.currentPosition with
  | none => simp
  | some p1 =>
    dsimp only
    by_cases h0 : st.lastForecastUpdate = 0
    · simp [h0]
    · by_cases hiv : (((now - st.lastForecastUpdate : ℤ) : ℚ)) ≥
          effectiveIntervalMinutes st * 60 * 1000
      · rw [if_neg h0, if_pos hiv]
        exact iff_of_true trivial (Or.inr (Or.inr (Or.inl hiv)))
      · simp only [if_neg h0, if_neg hiv]
        constructor
        · intro h
          exact Or.inr (Or.inr (Or.inr ⟨p1, rfl, h⟩))
        · rintro (h | h | h | ⟨p2, hp2, h⟩)
          · exact absurd h (by simp)
          · exact absurd h h0
          · exact absurd h hiv
          · rw [Option.some.injEq] at hp2
            rw [hp2]
            exact h

/-- C9: a boolean PUT value sets `movingForecastEngaged` to that value and
acknowledges COMPLETED; every non-boolean value is rejected with FAILURE and
status code 400 and leaves the whole engine state unchanged. -/
theorem c9_engagement_put (value : JSValue) (st : EngineState) :
    (∀ b, value = .boolean b →
       handleEngagementPut value st =
         ({ st with movingForecastEngaged := b }, ⟨"COMPLETED", none⟩)) ∧
    ((∀ b, value ≠ .boolean b) →
       handleEngagementPut value st = (st, ⟨"FAILURE", some 400⟩)) := by
  constructor
  · rintro b rfl
    rfl
  · intro h
    cases value with
    | boolean b => exact absurd rfl (h b)
    | number q => rfl
    | string s => rfl
    | nullValue => rfl
    | undefinedValue => rfl

/-- C9 witness: the handler theorem applied to a concrete boolean and a
concrete non-boolean value on a concrete state. -/
theorem c9_engagement_put_witness :
    handleEngagementPut (.boolean true) ⟨none, none, none, false, 0, none⟩ =
      (⟨none, none, none, true, 0, none⟩, ⟨"COMPLETED", none⟩) ∧
    handleEngagementPut (.number 3) ⟨none, none, none, false, 0, none⟩ =
      (⟨none, none, none, false, 0, none⟩, ⟨"FAILURE", some 400⟩) :=
  ⟨(c9_engagement_put (.boolean true) ⟨none, none, none, false, 0, none⟩).1 true rfl,
   (c9_engagement_put (.number 3) ⟨none, none, none, false, 0, none⟩).2
     (fun b h => by cases h)⟩

theorem range_split (N i : ℕ) (h : i < N) :
    List.range N =
      List.range i ++ i :: ((List.range (N - i - 1)).map (fun j => i + 1 + j)) := by
  have hN : N = i + (1 + (N - i - 1)) := by omega
  rw [hN, List.range_add, List.range_add]
  simp [List.map_map, Function.comp, List.range_succ]

/-- If every fetch before `hFail` succeeds and the fetch for `hFail` fails,
the per-hour loop abandons the moving path: it returns the fallback stationary
cycle's state and published series (the accumulator is dropped), with the
moving fetch trace followed by the fallback's trace. -/
theorem movingLoop_first_failure (tz now : ℤ) (config : PluginConfig)
    (oracle : MovingFetchOracle) (st : EngineState) (position : Position)
    (heading sog : ℚ) (hpk : getEnabledPackages config ≠ [])
    (hFail : ℕ) (rest : List ℕ) (hf : oracle.perHour hFail = none) :
    ∀ good : List ℕ, (∀ h ∈ good, (oracle.perHour h).isSome) →
    ∀ acc evs,
      movingLoop tz now config oracle st position heading sog
        (good ++ hFail :: rest) acc evs =
      ⟨(fetchForecast tz now config oracle.fallback (some position) st).state,
       (fetchForecast tz now config oracle.fallback (some position) st).published,
       (evs ++ (good ++ [hFail]).map FetchEvent.movingHour) ++
         (fetchForecast tz now config oracle.fallback (some position) st).fetches⟩ := by
  intro good
  induction good with
  | nil =>
    intro _ acc evs
    simp only [List.nil_append]
    unfold movingLoop
    rw [if_neg hpk, hf]
    simp
  | cons g good' ih =>
    intro hgood acc evs
    have hg : (oracle.perHour g).isSome := hgood g (List.mem_cons_self _ _)
    obtain ⟨frame, hframe⟩ := Option.isSome_iff_exists.mp hg
    simp only [List.cons_append]
    unfold movingLoop
    rw [if_neg hpk, hframe]
    dsimp only
    rw [ih (fun h hh => hgood h (List.mem_cons_of_mem _ hh)) _ _]
    simp

/-- A completed stationary fetch cycle (key configured, packages enabled,
position present) always advances `lastForecastUpdate`, issues exactly one
stationary fetch, and publishes no moving-hourly series. -/
theorem fetchForecast_completes (tz now : ℤ) (config : PluginConfig)
    (res : Option RawProviderFrame) (pos : Position) (st : EngineState)
    (hkey : config.meteoblueApiKey ≠ "") (hpk : getEnabledPackages config ≠ []) :
    (fetchForecast tz now config res (some pos) st).state.lastForecastUpdate = now ∧
    (fetchForecast tz now config res (some pos) st).fetches =
      [FetchEvent.stationary pos] ∧
    (∀ p ∈ (fetchForecast tz now config res (some pos) st).published,
      p.isMovingHourly = false) := by
  unfold fetchForecast
  rw [if_neg hkey]
  dsimp only
  rw [if_neg hpk]
  cases res with
  | none => exact ⟨rfl, rfl, by simp⟩
  | some frame =>
    refine ⟨rfl, rfl, ?_⟩
    intro p hp
    dsimp only at hp
    rcases List.mem_append.mp hp with h | h
    · rcases h1h : frame.data_1h with _ | blk <;> rw [h1h] at h <;> dsimp only at h
      · simp at h
      · by_cases hne : hourlyPackageTypes config ≠ []
        · rw [if_pos hne] at h
          obtain ⟨pt, _, rfl⟩ := List.mem_map.mp h
          rfl
        · rw [if_neg hne] at h
          simp at h
    · rcases h1d : frame.data_day with _ | blk <;> rw [h1d] at h <;> dsimp only at h
      · simp at h
      · by_cases hne : dailyPackageTypes config ≠ []
        · rw [if_pos hne] at h
          obtain ⟨pt, _, rfl⟩ := List.mem_map.mp h
          rfl
        · rw [if_neg hne] at h
          simp at h

/-- C3: a failed fetch still completes the cycle.  Stationary path: a failed
fetch advances `lastForecastUpdate` to now and publishes nothing.  Moving
path: when the first per-hour fetch failure occurs at hour `hFail`, the engine
returns the fallback stationary cycle's state and published series (so the
partial hourly accumulator is never published, and no moving-hourly series
appears), `lastForecastUpdate` is advanced to now, and exactly one stationary
fetch — at the current position — is issued. -/
theorem c3_failure_completes_cycle :
    (∀ tz now (config : PluginConfig) (pos : Position) (st : EngineState),
       config.meteoblueApiKey ≠ "" →
       (fetchForecast tz now config none (some pos) st).state.lastForecastUpdate
           = now ∧
       (fetchForecast tz now config none (some pos) st).published = []) ∧
    (∀ tz now (config : PluginConfig) (oracle : MovingFetchOracle)
       (st : EngineState) (position : Position) (heading sog : ℚ) (hFail : ℕ),
       config.meteoblueApiKey ≠ "" →
       getEnabledPackages config ≠ [] →
       st.currentPosition = some position →
       st.currentHeading = some heading → heading ≠ 0 →
       st.currentSOG = some sog → sog ≠ 0 →
       isVesselMoving sog config.movingSpeedThreshold = true →
       st.movingForecastEngaged = true →
       hFail < config.maxForecastHours →
       oracle.perHour hFail = none →
       (∀ h < hFail, (oracle.perHour h).isSome) →
       (fetchForecastForMovingVessel tz now config oracle st).state =
         (fetchForecast tz now config oracle.fallback (some position) st).state ∧
       (fetchForecastForMovingVessel tz now config oracle st).published =
         (fetchForecast tz now config oracle.fallback (some position) st).published ∧
       (fetchForecastForMovingVessel tz now config oracle st).state.lastForecastUpdate
           = now ∧
       (fetchForecastForMovingVessel tz now config oracle st).fetches.filter
           FetchEvent.isStationary = [FetchEvent.stationary position] ∧
       (∀ p ∈ (fetchForecastForMovingVessel tz now config oracle st).published,
         p.isMovingHourly = false)) := by
  constructor
  · intro tz now config pos st hkey
    unfold fetchForecast
    rw [if_neg hkey]
    dsimp only
    by_cases hpk : getEnabledPackages config = []
    · rw [if_pos hpk]
      exact ⟨rfl, rfl⟩
    · rw [if_neg hpk]
      exact ⟨rfl, rfl⟩
  · intro tz now config oracle st position heading sog hFail hkey hpk hcp hch hh0
      hcs hs0 hmov heng hlt hfail hprev
    have hrw : fetchForecastForMovingVessel tz now config oracle st =
        ⟨(fetchForecast tz now config oracle.fallback (some position) st).state,
         (fetchForecast tz now config oracle.fallback (some position) st).published,
         (([] : List FetchEvent) ++
            (List.range hFail ++ [hFail]).map FetchEvent.movingHour) ++
           (fetchForecast tz now config oracle.fallback (some position) st).fetches⟩ := by
      unfold fetchForecastForMovingVessel
      rw [hcp, hch, hcs]
      dsimp only
      rw [if_neg ?hguard]
      case hguard =>
        rintro (h | h | h | h)
        · exact hh0 h
        · exact hs0 h
        · rw [hmov] at h
          cases h
        · rw [heng] at h
          cases h
      rw [range_split config.maxForecastHours hFail hlt]
      exact movingLoop_first_failure tz now config oracle st position heading sog
        hpk hFail _ hfail (List.range hFail)
        (fun h hh => hprev h (List.mem_range.mp hh)) _ _
    obtain ⟨hlast, hfetches, hnomoving⟩ :=
      fetchForecast_completes tz now config oracle.fallback position st hkey hpk
    rw [hrw]
    refine ⟨rfl, rfl, hlast, ?_, hnomoving⟩
    rw [List.filter_append, hfetches]
    have hmh : ((List.range hFail ++ [hFail]).map FetchEvent.movingHour).filter
        FetchEvent.isStationary = [] := by
      rw [List.filter_eq_nil_iff]
      intro a ha
      obtain ⟨h, _, rfl⟩ := List.mem_map.mp ha
      simp [FetchEvent.isStationary]
    rw [List.nil_append, hmh, List.nil_append]
    rfl

/-- C3 witness: both parts of the theorem applied at concrete inputs — a
failed stationary fetch advances the clock, and a moving cycle whose first
per-hour fetch fails completes with one stationary fallback fetch at the
current position. -/
theorem c3_failure_completes_cycle_witness :
    (fetchForecast 0 99 c3Config none (some ⟨1, 2, 0⟩) c3State).state.lastForecastUpdate
        = 99 ∧
    (fetchForecastForMovingVessel 0 99 c3Config c3Oracle c3State).state.lastForecastUpdate
        = 99 ∧
    (fetchForecastForMovingVessel 0 99 c3Config c3Oracle c3State).fetches.filter
        FetchEvent.isStationary = [FetchEvent.stationary ⟨1, 2, 0⟩] :=
  have h2 := c3_failure_completes_cycle.2 0 99 c3Config c3Oracle c3State
    ⟨1, 2, 0⟩ 1 5 0 (by decide) (by decide) rfl rfl (by norm_num) rfl
    (by norm_num)
    (by simp only [isVesselMoving, c3Config, decide_eq_true_eq]; norm_num)
    rfl (by decide) rfl
    (fun h hh => absurd hh (Nat.not_lt_zero h))
  ⟨(c3_failure_completes_cycle.1 0 99 c3Config ⟨1, 2, 0⟩ c3State (by decide)).1,
   h2.2.2.1, h2.2.2.2.1⟩

/-- C5 (counterexample): on a stored record with no current-velocity
components, the adapter emits `current.drift = 0` and
`water.surfaceCurrentSpeed = 0` — present zeros for absent stored fields,
falsifying "never defaulted to zero". -/
theorem c5_counterexample :
    fdGet [] "currentvelocity_u" = none ∧ fdGet [] "currentvelocity_v" = none ∧
    (convertToWeatherAPIObservation []).current.drift = some 0 ∧
    (convertToWeatherAPIObservation []).water.surfaceCurrentSpeed = some 0 := by
  refine ⟨rfl, rfl, ?_, ?_⟩ <;>
    simp [convertToWeatherAPIObservation, fdGet]

/-- C5 (amended): for every stored record, every output field of the
outside/wind/water/sun/current groupings whose stored source field is absent
is omitted from the output — except the always-present computed fields
`water.surfaceCurrentSpeed` and `current.drift` (which default to 0 when the
current-velocity components are absent) and `sun.isDaylight` (which defaults
to false); those three exceptions are the amendment. -/
theorem c5_absent_fields_omitted (d : List (String × ℚ)) :
    ((fdGet d "temperature" = none →
       (convertToWeatherAPIObservation d).outside.temperature = none) ∧
     (fdGet d "sealevelpressure" = none →
       (convertToWeatherAPIObservation d).outside.pressure = none) ∧
     (fdGet d "relativehumidity" = none →
       (convertToWeatherAPIObservation d).outside.relativeHumidity = none) ∧
     (fdGet d "uvindex" = none →
       (convertToWeatherAPIObservation d).outside.uvIndex = none) ∧
     (fdGet d "cloudcover" = none →
       (convertToWeatherAPIObservation d).outside.cloudCover = none) ∧
     (fdGet d "precipitation" = none →
       (convertToWeatherAPIObservation d).outside.precipitationVolume = none) ∧
     (fdGet d "felttemperature" = none →
       (convertToWeatherAPIObservation d).outside.feelsLikeTemperature = none) ∧
     (fdGet d "visibility" = none →
       (convertToWeatherAPIObservation d).outside.horizontalVisibility = none) ∧
     (fdGet d "dewpoint" = none → fdGet d "dewpointtemperature" = none →
       (convertToWeatherAPIObservation d).outside.dewPointTemperature = none) ∧
     (fdGet d "precipitation_probability" = none →
       (convertToWeatherAPIObservation d).outside.precipitationProbability = none) ∧
     (fdGet d "pressure_trend" = none → fdGet d "sealevelpressure_trend" = none →
       (convertToWeatherAPIObservation d).outside.pressureTendency = none) ∧
     (fdGet d "solarradiation" = none →
       (convertToWeatherAPIObservation d).outside.solarRadiation = none) ∧
     (fdGet d "irradiance_direct_normal" = none →
       (convertToWeatherAPIObservation d).outside.directNormalIrradiance = none) ∧
     (fdGet d "irradiance_diffuse_horizontal" = none →
       (convertToWeatherAPIObservation d).outside.diffuseHorizontalIrradiance = none) ∧
     (fdGet d "irradiance_global_horizontal" = none →
       (convertToWeatherAPIObservation d).outside.globalHorizontalIrradiance = none) ∧
     (fdGet d "extraterrestrial_solar_radiation" = none →
       (convertToWeatherAPIObservation d).outside.extraterrestrialSolarRadiation = none) ∧
     (fdGet d "total_cloud_cover" = none →
       (convertToWeatherAPIObservation d).outside.totalCloudCover = none) ∧
     (fdGet d "low_cloud_cover" = none →
       (convertToWeatherAPIObservation d).outside.lowCloudCover = none) ∧
     (fdGet d "mid_cloud_cover" = none →
       (convertToWeatherAPIObservation d).outside.midCloudCover = none) ∧
     (fdGet d "high_cloud_cover" = none →
       (convertToWeatherAPIObservation d).outside.highCloudCover = none) ∧
     (fdGet d "cloud_base_height" = none →
       (convertToWeatherAPIObservation d).outside.cloudBaseHeight = none) ∧
     (fdGet d "cloud_top_height" = none →
       (convertToWeatherAPIObservation d).outside.cloudTopHeight = none) ∧
     (fdGet d "windspeed" = none →
       (convertToWeatherAPIObservation d).wind.speedTrue = none) ∧
     (fdGet d "winddirection" = none →
       (convertToWeatherAPIObservation d).wind.directionTrue = none) ∧
     (fdGet d "gust" = none →
       (convertToWeatherAPIObservation d).wind.gust = none) ∧
     (fdGet d "windspeed" = none →
       (convertToWeatherAPIObservation d).wind.averageSpeed = none) ∧
     (fdGet d "gustdirection" = none →
       (convertToWeatherAPIObservation d).wind.gustDirectionTrue = none) ∧
     (fdGet d "seasurfacetemperature" = none →
       (convertToWeatherAPIObservation d).water.temperature = none) ∧
     (fdGet d "significantwaveheight" = none →
       (convertToWeatherAPIObservation d).water.waveSignificantHeight = none) ∧
     (fdGet d "mean_waveperiod" = none →
       (convertToWeatherAPIObservation d).water.wavePeriod = none) ∧
     (fdGet d "mean_wavedirection" = none →
       (convertToWeatherAPIObservation d).water.waveDirection = none) ∧
     (fdGet d "swell_significantheight" = none →
       (convertToWeatherAPIObservation d).water.swellHeight = none) ∧
     (fdGet d "swell_meanperiod" = none →
       (convertToWeatherAPIObservation d).water.swellPeriod = none) ∧
     (fdGet d "swell_meandirection" = none →
       (convertToWeatherAPIObservation d).water.swellDirection = none) ∧
     (fdGet d "currentvelocity_u" = none →
       (convertToWeatherAPIObservation d).water.surfaceCurrentDirection = none) ∧
     (fdGet d "salinity" = none →
       (convertToWeatherAPIObservation d).water.salinity = none) ∧
     (fdGet d "douglas_seastate" = none →
       (convertToWeatherAPIObservation d).water.seaState = none) ∧
     (fdGet d "surfwave_height" = none →
       (convertToWeatherAPIObservation d).water.surfaceWaveHeight = none) ∧
     (fdGet d "windwave_height" = none →
       (convertToWeatherAPIObservation d).water.windWaveHeight = none) ∧
     (fdGet d "windwave_meanperiod" = none →
       (convertToWeatherAPIObservation d).water.windWavePeriod = none) ∧
     (fdGet d "windwave_direction" = none →
       (convertToWeatherAPIObservation d).water.windWaveDirection = none) ∧
     (fdGet d "swell_peakwaveperiod" = none →
       (convertToWeatherAPIObservation d).water.swellPeakPeriod = none) ∧
     (fdGet d "windwave_peakwaveperiod" = none →
       (convertToWeatherAPIObservation d).water.windWavePeakPeriod = none) ∧
     (fdGet d "wavesteepness" = none →
       (convertToWeatherAPIObservation d).water.waveSteepness = none) ∧
     (fdGet d "sunshine_duration" = none →
       (convertToWeatherAPIObservation d).sun.sunshineDuration = none) ∧
     (fdGet d "currentvelocity_u" = none →
       (convertToWeatherAPIObservation d).current.set = none)) ∧
    ((fdGet d "temperature_mean" = none →
       (convertToWeatherAPIForecastDaily d).outside.temperature = none) ∧
     (fdGet d "temperature_max" = none →
       (convertToWeatherAPIForecastDaily d).outside.maxTemperature = none) ∧
     (fdGet d "temperature_min" = none →
       (convertToWeatherAPIForecastDaily d).outside.minTemperature = none) ∧
     (fdGet d "felttemperature_mean" = none →
       (convertToWeatherAPIForecastDaily d).outside.feelsLikeTemperature = none) ∧
     (fdGet d "sealevelpressure_mean" = none →
       (convertToWeatherAPIForecastDaily d).outside.pressure = none) ∧
     (fdGet d "relativehumidity_mean" = none →
       (convertToWeatherAPIForecastDaily d).outside.relativeHumidity = none) ∧
     (fdGet d "uvindex" = none →
       (convertToWeatherAPIForecastDaily d).outside.uvIndex = none) ∧
     (fdGet d "precipitation" = none →
       (convertToWeatherAPIForecastDaily d).outside.precipitationVolume = none) ∧
     (fdGet d "dewpoint_mean" = none →
       (convertToWeatherAPIForecastDaily d).outside.dewPointTemperature = none) ∧
     (fdGet d "visibility_mean" = none →
       (convertToWeatherAPIForecastDaily d).outside.horizontalVisibility = none) ∧
     (fdGet d "precipitation_probability" = none →
       (convertToWeatherAPIForecastDaily d).outside.precipitationProbability = none) ∧
     (fdGet d "cloudcover_mean" = none →
       (convertToWeatherAPIForecastDaily d).outside.cloudCover = none) ∧
     (fdGet d "total_cloud_cover_mean" = none →
       (convertToWeatherAPIForecastDaily d).outside.totalCloudCover = none) ∧
     (fdGet d "low_cloud_cover_mean" = none →
       (convertToWeatherAPIForecastDaily d).outside.lowCloudCover = none) ∧
     (fdGet d "mid_cloud_cover_mean" = none →
       (convertToWeatherAPIForecastDaily d).outside.midCloudCover = none) ∧
     (fdGet d "high_cloud_cover_mean" = none →
       (convertToWeatherAPIForecastDaily d).outside.highCloudCover = none) ∧
     (fdGet d "solarradiation_mean" = none →
       (convertToWeatherAPIForecastDaily d).outside.solarRadiation = none) ∧
     (fdGet d "irradiance_direct_normal_max" = none →
       (convertToWeatherAPIForecastDaily d).outside.directNormalIrradiance = none) ∧
     (fdGet d "irradiance_diffuse_horizontal_max" = none →
       (convertToWeatherAPIForecastDaily d).outside.diffuseHorizontalIrradiance = none) ∧
     (fdGet d "irradiance_global_horizontal_max" = none →
       (convertToWeatherAPIForecastDaily d).outside.globalHorizontalIrradiance = none) ∧
     (fdGet d "windspeed_max" = none →
       (convertToWeatherAPIForecastDaily d).wind.speedTrue = none) ∧
     (fdGet d "winddirection" = none →
       (convertToWeatherAPIForecastDaily d).wind.directionTrue = none) ∧
     (fdGet d "windspeed_mean" = none →
       (convertToWeatherAPIForecastDaily d).wind.averageSpeed = none) ∧
     (fdGet d "seasurfacetemperature_mean" = none →
       (convertToWeatherAPIForecastDaily d).water.temperature = none) ∧
     (fdGet d "currentvelocity_u" = none →
       (convertToWeatherAPIForecastDaily d).water.surfaceCurrentDirection = none) ∧
     (fdGet d "sunshine_duration" = none →
       (convertToWeatherAPIForecastDaily d).sun.sunshineDuration = none) ∧
     (fdGet d "currentvelocity_u" = none →
       (convertToWeatherAPIForecastDaily d).current.set = none)) := by
  constructor
  · refine ⟨?_, ?_, ?_, ?_, ?_, ?_, ?_, ?_, ?_, ?_, ?_, ?_, ?_, ?_, ?_, ?_, ?_, ?_, ?_, ?_, ?_, ?_, ?_, ?_, ?_, ?_, ?_, ?_, ?_, ?_, ?_, ?_, ?_, ?_, ?_, ?_, ?_, ?_, ?_, ?_, ?_, ?_, ?_, ?_, ?_, ?_⟩ <;>
      (intros; simp_all [convertToWeatherAPIObservation, jsOr, jsTruthy])
  · refine ⟨?_, ?_, ?_, ?_, ?_, ?_, ?_, ?_, ?_, ?_, ?_, ?_, ?_, ?_, ?_, ?_, ?_, ?_, ?_, ?_, ?_, ?_, ?_, ?_, ?_, ?_, ?_⟩ <;>
      (intros; simp_all [convertToWeatherAPIForecastDaily, jsOr, jsTruthy])

/-- C5 witness: the amended theorem applied at the empty stored record, for
one observation field and one daily field. -/
theorem c5_absent_fields_omitted_witness :
    (convertToWeatherAPIObservation []).outside.temperature = none ∧
    (convertToWeatherAPIForecastDaily []).outside.temperature = none :=
  ⟨(c5_absent_fields_omitted []).1.1 rfl, (c5_absent_fields_omitted []).2.1 rfl⟩
